import Mathlib

/-!
Shallow embedding of the order pricing engine of the ap-backend repository:
the `calculateOrderAmount` (POST /orders/calculate), `createOrder`
(POST /orders) and `updateOrder` (PUT /orders/:id) handlers of the order
controller, together with the `Coupon` and `Discount` model methods they
call (`canBeUsed`, `canBeApplied`, `calculateDiscount`, `incrementUsage`
and the `isValid` virtual).

Modelling conventions:
* JS numbers are modelled as `Rat`; dates as `Int` with the current time
  passed as a parameter `now`.
* Optional numeric fields are `Option`; JS truthiness (`undefined` and `0`
  are falsy) is captured by the `truthy…` helpers.
* Mongo reads become list lookups/filters on an explicit `DB` state;
  `save()` writes become functional updates keyed by a numeric `id`.
* Handlers that write are state transformers `… → Except OrderError α × DB`;
  the returned `DB` records exactly the writes the handler performed, even
  when the request ends in an error response.
-/

/-- Request body line item (`{ product, quantity }`). Product id `0` and
quantity `0` stand for the JS-falsy values rejected by the item validation. -/
structure ReqItem where
  product : Nat
  quantity : Nat
  deriving Repr, DecidableEq

/-- Product document: only the fields the pricing engine reads. -/
structure Product where
  id : Nat
  price : Rat
  deriving Repr, DecidableEq

/-- JS truthiness of an optional numeric field: `undefined` and `0` are falsy. -/
def truthyQ : Option Rat → Bool
  | none => false
  | some x => x != 0

/-- JS truthiness of an optional integer field. -/
def truthyN : Option Nat → Bool
  | none => false
  | some n => n != 0

/-- JS truthiness of an optional string: `undefined` and `""` are falsy. -/
def truthyS : Option String → Bool
  | none => false
  | some s => s != ""

inductive CouponKind
  | percentage
  | fixed
  deriving Repr, DecidableEq

/-- Coupon document (`src/models/Coupon.ts`). -/
structure Coupon where
  id : Nat
  code : String
  name : String
  discountType : CouponKind
  discountValue : Rat
  minimumOrderAmount : Option Rat := none
  maximumDiscount : Option Rat := none
  validFrom : Int
  validUntil : Int
  usageLimit : Option Nat := none
  usedCount : Nat := 0
  isActive : Bool := true
  deriving Repr, DecidableEq

/-- The `isValid` virtual of the coupon schema:
active, inside the validity window, and usage limit absent, `0`, or not
yet reached. -/
def Coupon.isValidAt (c : Coupon) (now : Int) : Bool :=
  c.isActive && decide (c.validFrom ≤ now) && decide (now ≤ c.validUntil) &&
    (match c.usageLimit with
     | none => true
     | some 0 => true
     | some l => decide (c.usedCount < l))

/-- `coupon.canBeUsed(orderAmount)`: `none` means valid, `some r` carries the
failure reason string. -/
def Coupon.canBeUsed (c : Coupon) (now : Int) (orderAmount : Rat) : Option String :=
  if !(c.isValidAt now) then some "Coupon is not valid"
  else if truthyQ c.minimumOrderAmount && decide (orderAmount < c.minimumOrderAmount.getD 0)
  then some ("Minimum order amount of ₹" ++ toString (c.minimumOrderAmount.getD 0) ++ " required")
  else none

/-- `coupon.calculateDiscount(orderAmount)` from the Coupon model: percentage
on the passed amount with the optional cap, fixed verbatim, then clamped to
the passed amount. -/
def Coupon.calculateDiscount (c : Coupon) (orderAmount : Rat) : Rat :=
  let base :=
    match c.discountType with
    | .percentage =>
        let d := orderAmount * (c.discountValue / 100)
        if truthyQ c.maximumDiscount then min d (c.maximumDiscount.getD 0) else d
    | .fixed => c.discountValue
  min base orderAmount

/-- `coupon.incrementUsage()`: a no-op unless `usageLimit` is a positive
number; otherwise bumps `usedCount` and deactivates the coupon once the
limit is reached. -/
def Coupon.incrementUsage (c : Coupon) : Coupon :=
  match c.usageLimit with
  | some l =>
      if 0 < l then
        { c with usedCount := c.usedCount + 1,
                 isActive := if l ≤ c.usedCount + 1 then false else c.isActive }
      else c
  | none => c

inductive DiscountKind
  | percentage
  | fixed
  | bulk
  | buyXgetY
  deriving Repr, DecidableEq

/-- The `conditions` bag of the discount schema. -/
structure DiscountConditions where
  buyQuantity : Option Nat := none
  getQuantity : Option Nat := none
  bulkThreshold : Option Nat := none
  bulkDiscount : Option Rat := none
  deriving Repr, DecidableEq

/-- Automatic discount document (`src/models/Discount.ts`). -/
structure Discount where
  id : Nat
  name : String
  type : DiscountKind
  value : Rat
  minimumOrderAmount : Option Rat := none
  maximumDiscount : Option Rat := none
  validFrom : Int
  validUntil : Int
  usageLimit : Option Nat := none
  usedCount : Nat := 0
  isActive : Bool := true
  applicableCategories : List Nat := []
  applicableProducts : List Nat := []
  conditions : DiscountConditions := {}
  deriving Repr, DecidableEq

/-- The `isValid` virtual of the discount schema. -/
def Discount.isValidAt (d : Discount) (now : Int) : Bool :=
  d.isActive && decide (d.validFrom ≤ now) && decide (now ≤ d.validUntil) &&
    (match d.usageLimit with
     | none => true
     | some 0 => true
     | some l => decide (d.usedCount < l))

/-- `discount.canBeApplied(orderAmount, totalQuantity)`: `none` means
applicable, `some r` carries the failure reason. Note that the method never
reads `applicableCategories`/`applicableProducts`. -/
def Discount.canBeApplied (d : Discount) (now : Int) (orderAmount : Rat)
    (totalQuantity : Nat) : Option String :=
  if !(d.isValidAt now) then some "Discount is not valid"
  else if truthyQ d.minimumOrderAmount && decide (orderAmount < d.minimumOrderAmount.getD 0)
  then some ("Minimum order amount of ₹" ++ toString (d.minimumOrderAmount.getD 0) ++ " required")
  else if d.type == .bulk && truthyN d.conditions.bulkThreshold
      && decide (totalQuantity < d.conditions.bulkThreshold.getD 0)
  then some ("Minimum " ++ toString (d.conditions.bulkThreshold.getD 0)
             ++ " items required for bulk discount")
  else none

/-- `discount.calculateDiscount(orderAmount, totalQuantity)`: percentage on
the passed amount, fixed verbatim, bulk percent once the threshold is met,
`buy_x_get_y` computes nothing; then the optional cap, then a clamp to the
passed amount. -/
def Discount.calculateDiscount (d : Discount) (orderAmount : Rat)
    (totalQuantity : Nat) : Rat :=
  let base :=
    match d.type with
    | .percentage => orderAmount * (d.value / 100)
    | .fixed => d.value
    | .bulk =>
        if truthyN d.conditions.bulkThreshold
            && decide (d.conditions.bulkThreshold.getD 0 ≤ totalQuantity)
        then orderAmount * ((d.conditions.bulkDiscount.getD 0) / 100)
        else 0
    | .buyXgetY => 0
  let capped := if truthyQ d.maximumDiscount then min base (d.maximumDiscount.getD 0) else base
  min capped orderAmount

/-- `discount.incrementUsage()`: same shape as the coupon method. -/
def Discount.incrementUsage (d : Discount) : Discount :=
  match d.usageLimit with
  | some l =>
      if 0 < l then
        { d with usedCount := d.usedCount + 1,
                 isActive := if l ≤ d.usedCount + 1 then false else d.isActive }
      else d
  | none => d

/-- Pricing settings document (`Settings.findOne({category:'pricing'}).value`),
with both the document and each field possibly absent collapsed into options. -/
structure PricingSettings where
  taxRate : Option Rat := none
  shippingCost : Option Rat := none
  deriving Repr, DecidableEq

inductive OrderStatus
  | pending
  | confirmed
  | processing
  | delivered
  | cancelled
  deriving Repr, DecidableEq

/-- Persisted order line item. -/
structure OrderItem where
  product : Nat
  quantity : Nat
  priceAtOrder : Rat
  deriving Repr, DecidableEq

/-- The embedded `pricing` block of an order (`IPricing`). -/
structure IPricing where
  subtotal : Rat
  taxRate : Rat
  taxAmount : Rat
  shippingCost : Rat
  discountAmount : Rat
  discountCode : String
  totalAmount : Rat
  deriving Repr, DecidableEq

/-- The embedded `appliedCoupon` record of an order (`IAppliedCoupon`). -/
structure IAppliedCoupon where
  couponId : Nat
  code : String
  discountAmount : Rat
  deriving Repr, DecidableEq

/-- The discount snapshot stored inside an applied automatic discount. -/
structure AppliedDiscountInfo where
  id : Nat
  name : String
  type : DiscountKind
  value : Rat
  deriving Repr, DecidableEq

/-- One entry of an order's `automaticDiscounts` array. -/
structure AppliedDiscount where
  discount : AppliedDiscountInfo
  discountAmount : Rat
  deriving Repr, DecidableEq

/-- Order document (`IOrder`), restricted to the fields the pricing engine
reads or writes. -/
structure IOrder where
  id : Nat
  user : Nat
  items : List OrderItem
  pricing : IPricing
  appliedCoupon : Option IAppliedCoupon := none
  automaticDiscounts : List AppliedDiscount := []
  totalAmount : Rat
  status : OrderStatus
  deriving Repr, DecidableEq

/-- The document-store state the three handlers read and write. -/
structure DB where
  products : List Product
  coupons : List Coupon
  discounts : List Discount
  pricing : PricingSettings
  orders : List IOrder
  deriving Repr, DecidableEq

/-- `coupon.save()` after mutating: replace the entry with the same id. -/
def DB.saveCoupon (db : DB) (c : Coupon) : DB :=
  { db with coupons := db.coupons.map (fun c0 => if c0.id == c.id then c else c0) }

/-- `discount.save()` after mutating: replace the entry with the same id. -/
def DB.saveDiscount (db : DB) (d : Discount) : DB :=
  { db with discounts := db.discounts.map (fun d0 => if d0.id == d.id then d else d0) }

/-- `Order.findByIdAndUpdate` / `order.save()` on an existing order. -/
def DB.saveOrder (db : DB) (o : IOrder) : DB :=
  { db with orders := db.orders.map (fun o0 => if o0.id == o.id then o else o0) }

/-- `s.toUpperCase()`, written through the character list so that it is
kernel-computable (extensionally `String.toUpper`). -/
def jsToUpperCase (s : String) : String :=
  String.mk (s.data.map Char.toUpper)

/-- `s.trim()`, written through the character list so that it is
kernel-computable. -/
def jsTrim (s : String) : String :=
  String.mk (((s.data.dropWhile Char.isWhitespace).reverse.dropWhile
    Char.isWhitespace).reverse)

/-- The machine-distinguishable error kinds the three handlers respond with. -/
inductive OrderError
  | invalidItemsArray
  | invalidItemFormat
  | productNotFound (pid : Nat)
  | couponNotFound
  | couponUsageLimitReached
  | minimumOrderNotMet (msg : String)
  | discountValidationFailed (msg : String)
  | orderNotFound
  | forbidden
  | cannotUpdate
  deriving Repr, DecidableEq

/-- The message of the controller's minimum-order rejection, embedding the
minimum amount. -/
def minimumOrderMessage (m : Rat) : String :=
  "Minimum order amount of ₹" ++ toString m ++ " required for this coupon"

/-- Item-array validation shared by all three handlers: non-empty, and every
item has a truthy product id and a quantity of at least 1. -/
def validateItems (items : List ReqItem) : Option OrderError :=
  if items.isEmpty then some .invalidItemsArray
  else if items.any (fun it => it.product == 0 || it.quantity == 0) then some .invalidItemFormat
  else none

/-- Resolve each item's product and accumulate the subtotal
(`subtotal += product.price * item.quantity`). -/
def buildOrderItems (db : DB) : List ReqItem → Except OrderError (List OrderItem × Rat)
  | [] => .ok ([], 0)
  | it :: rest =>
    match db.products.find? (fun p => p.id == it.product) with
    | none => .error (.productNotFound it.product)
    | some p =>
      match buildOrderItems db rest with
      | .error e => .error e
      | .ok (os, s) =>
          .ok ({ product := it.product, quantity := it.quantity, priceAtOrder := p.price } :: os,
               p.price * (it.quantity : Rat) + s)

/-- `items.reduce((sum, item) => sum + item.quantity, 0)`. -/
def totalQuantity (items : List ReqItem) : Nat :=
  items.foldl (fun sum it => sum + it.quantity) 0

/-- The coupon query of the calculate and create paths:
`Coupon.findOne({ code: couponCode.toUpperCase(), isActive: true,
validFrom ≤ now, validUntil ≥ now })`. -/
def findActiveCoupon (db : DB) (now : Int) (code : String) : Option Coupon :=
  db.coupons.find? (fun c =>
    c.code == jsToUpperCase code && c.isActive
      && decide (c.validFrom ≤ now) && decide (now ≤ c.validUntil))

/-- `Discount.find({ isActive: true, validFrom ≤ now, validUntil ≥ now })`. -/
def activeDiscounts (db : DB) (now : Int) : List Discount :=
  db.discounts.filter (fun d =>
    d.isActive && decide (d.validFrom ≤ now) && decide (now ≤ d.validUntil))

/-- The usage-limit guard of the calculate and create paths:
`coupon.usageLimit && coupon.usageLimit > 0 && coupon.usedCount >= coupon.usageLimit`. -/
def couponUsageExceeded (c : Coupon) : Bool :=
  truthyN c.usageLimit && decide (0 < c.usageLimit.getD 0)
    && decide (c.usageLimit.getD 0 ≤ c.usedCount)

/-- The minimum-order guard of the calculate and create paths: it compares the
minimum against the SUBTOTAL, not against subtotal + tax + shipping. -/
def couponBelowMinimum (c : Coupon) (subtotal : Rat) : Bool :=
  truthyQ c.minimumOrderAmount && decide (subtotal < c.minimumOrderAmount.getD 0)

/-- The inline coupon-discount computation duplicated in the calculate and
create handlers: percentage of the SUBTOTAL with the optional cap, fixed
verbatim; no clamp here. -/
def couponDiscountOn (c : Coupon) (subtotal : Rat) : Rat :=
  match c.discountType with
  | .percentage =>
      let d := subtotal * (c.discountValue / 100)
      if truthyQ c.maximumDiscount then min d (c.maximumDiscount.getD 0) else d
  | .fixed => c.discountValue

/-- Coupon checks of the calculate handler, in source order: usage limit,
then minimum order, then the discount computation (unclamped). -/
def previewResolveCoupon (c : Coupon) (subtotal : Rat) : Except OrderError Rat :=
  if couponUsageExceeded c then .error .couponUsageLimitReached
  else if couponBelowMinimum c subtotal
  then .error (.minimumOrderNotMet (minimumOrderMessage (c.minimumOrderAmount.getD 0)))
  else .ok (couponDiscountOn c subtotal)

/-- Coupon checks of the create handler, in source order: minimum order,
then usage limit, then the discount computation clamped to the subtotal. -/
def createResolveCoupon (c : Coupon) (subtotal : Rat) : Except OrderError Rat :=
  if couponBelowMinimum c subtotal
  then .error (.minimumOrderNotMet (minimumOrderMessage (c.minimumOrderAmount.getD 0)))
  else if couponUsageExceeded c then .error .couponUsageLimitReached
  else .ok (min (couponDiscountOn c subtotal) subtotal)

/-- Discount snapshot stored with an applied automatic discount. -/
def Discount.summary (d : Discount) : AppliedDiscountInfo :=
  { id := d.id, name := d.name, type := d.type, value := d.value }

/-- The automatic-discount loop of the calculate (and update) paths: a
discount failing `canBeApplied` is skipped with `continue`; one computing a
positive amount is collected. -/
def previewDiscounts (now : Int) (amountAfterCoupon : Rat) (q : Nat) :
    List Discount → List AppliedDiscount × Rat
  | [] => ([], 0)
  | d :: rest =>
    let (l, t) := previewDiscounts now amountAfterCoupon q rest
    match d.canBeApplied now amountAfterCoupon q with
    | some _ => (l, t)
    | none =>
      let amt := d.calculateDiscount amountAfterCoupon q
      if 0 < amt then ({ discount := d.summary, discountAmount := amt } :: l, amt + t)
      else (l, t)

/-- The `appliedCoupon` object of the calculate response. -/
structure PreviewAppliedCoupon where
  couponId : Nat
  code : String
  name : String
  discountType : CouponKind
  discountValue : Rat
  discountAmount : Rat
  deriving Repr, DecidableEq

/-- The JSON body of a successful POST /orders/calculate response. -/
structure CalcResponse where
  subtotal : Rat
  taxRate : Rat
  taxAmount : Rat
  shippingCost : Rat
  discountAmount : Rat
  couponDiscount : Rat
  amountAfterCoupon : Rat
  automaticDiscounts : List AppliedDiscount
  totalAutomaticDiscount : Rat
  finalTotal : Rat
  appliedCoupon : Option PreviewAppliedCoupon
  deriving Repr, DecidableEq

/-- The coupon block of the calculate handler (lines 69-125): find the
active coupon and run the preview-order checks; no state is written. -/
def previewCouponStep (db : DB) (now : Int) (couponCode : Option String)
    (subtotal : Rat) : Except OrderError (Rat × Option PreviewAppliedCoupon) :=
  if truthyS couponCode then
    match findActiveCoupon db now (couponCode.getD "") with
    | none => .error .couponNotFound
    | some c =>
      match previewResolveCoupon c subtotal with
      | .error e => .error e
      | .ok cd =>
          .ok (cd, some { couponId := c.id, code := c.code, name := c.name,
                          discountType := c.discountType,
                          discountValue := c.discountValue, discountAmount := cd })
  else .ok (0, none)

/-- POST /orders/calculate (`orderController.calculateOrderAmount`). The
handler performs no writes, so the returned state is the input state on
every path. -/
def calculateOrderAmount (db : DB) (now : Int) (items : List ReqItem)
    (couponCode : Option String) (preserveOriginalPricing : Bool) :
    Except OrderError CalcResponse × DB :=
  match validateItems items with
  | some e => (.error e, db)
  | none =>
    match buildOrderItems db items with
    | .error e => (.error e, db)
    | .ok (_, subtotal) =>
      let taxRate := db.pricing.taxRate.getD 0
      let shippingCost := db.pricing.shippingCost.getD 0
      let taxAmount := subtotal * taxRate
      let totalWithTaxAndShipping := subtotal + taxAmount + shippingCost
      match previewCouponStep db now couponCode subtotal with
      | .error e => (.error e, db)
      | .ok (couponDiscount, appliedCoupon) =>
        let amountAfterCoupon := totalWithTaxAndShipping - couponDiscount
        let (autos, totalAuto) :=
          if preserveOriginalPricing then ([], 0)
          else previewDiscounts now amountAfterCoupon (totalQuantity items)
                 (activeDiscounts db now)
        let finalTotal :=
          if preserveOriginalPricing then amountAfterCoupon
          else amountAfterCoupon - totalAuto
        (.ok { subtotal := subtotal, taxRate := taxRate, taxAmount := taxAmount,
               shippingCost := shippingCost,
               discountAmount := couponDiscount + totalAuto,
               couponDiscount := couponDiscount,
               amountAfterCoupon := amountAfterCoupon,
               automaticDiscounts := autos, totalAutomaticDiscount := totalAuto,
               finalTotal := finalTotal, appliedCoupon := appliedCoupon }, db)

/-- The automatic-discount loop of the create handler (POST /orders): any
active discount failing `canBeApplied` ABORTS the request with a
discount-validation error; an applicable discount with a positive amount is
collected and its usage counter incremented immediately. The state threads
the writes performed so far. -/
def createDiscountsLoop (now : Int) (amountAfterCoupon : Rat) (q : Nat) :
    List Discount → DB → Except OrderError (List AppliedDiscount × Rat) × DB
  | [], db => (.ok ([], 0), db)
  | d :: rest, db =>
    match d.canBeApplied now amountAfterCoupon q with
    | some reason => (.error (.discountValidationFailed reason), db)
    | none =>
      let amt := d.calculateDiscount amountAfterCoupon q
      if 0 < amt then
        let db1 := db.saveDiscount d.incrementUsage
        match createDiscountsLoop now amountAfterCoupon q rest db1 with
        | (.ok (l, t), db2) =>
            (.ok ({ discount := d.summary, discountAmount := amt } :: l, amt + t), db2)
        | (.error e, db2) => (.error e, db2)
      else createDiscountsLoop now amountAfterCoupon q rest db

/-- The coupon block of the create handler (lines 259-315): find the active
coupon, run the checks, and, when the coupon applies, increment its usage
immediately. Returns the discount, the applied-coupon record and the state
after the increment. -/
def createCouponStep (db : DB) (now : Int) (couponCode : Option String)
    (subtotal : Rat) : Except OrderError (Rat × Option IAppliedCoupon × DB) :=
  if truthyS couponCode then
    match findActiveCoupon db now (couponCode.getD "") with
    | none => .error .couponNotFound
    | some c =>
      match createResolveCoupon c subtotal with
      | .error e => .error e
      | .ok cd =>
          .ok (cd, some { couponId := c.id, code := c.code, discountAmount := cd },
               db.saveCoupon c.incrementUsage)
  else .ok (0, none, db)

/-- POST /orders (`orderController.createOrder`). Returns the created order
(or the failure) together with the state after every write the handler
performed: the coupon usage increment happens as soon as the coupon is
applied, the discount increments happen one by one inside the loop, and the
order document is appended only at the very end. -/
def createOrder (db : DB) (now : Int) (user : Nat) (items : List ReqItem)
    (couponCode : Option String) : Except OrderError IOrder × DB :=
  match validateItems items with
  | some e => (.error e, db)
  | none =>
    match buildOrderItems db items with
    | .error e => (.error e, db)
    | .ok (orderItems, subtotal) =>
      let taxRate := db.pricing.taxRate.getD 0
      let shippingCost := db.pricing.shippingCost.getD 0
      let taxAmount := subtotal * taxRate
      let totalWithTaxAndShipping := subtotal + taxAmount + shippingCost
      match createCouponStep db now couponCode subtotal with
      | .error e => (.error e, db)
      | .ok (discountAmount, appliedCoupon, db1) =>
        let amountAfterCoupon := subtotal - discountAmount
        match createDiscountsLoop now amountAfterCoupon (totalQuantity items)
                (activeDiscounts db1 now) db1 with
        | (.error e, db2) => (.error e, db2)
        | (.ok (autos, totalAuto), db2) =>
          let totalDiscount := discountAmount + totalAuto
          let finalTotal := totalWithTaxAndShipping - totalDiscount
          let order : IOrder :=
            { id := db2.orders.length, user := user, items := orderItems,
              pricing := { subtotal := subtotal, taxRate := taxRate, taxAmount := taxAmount,
                           shippingCost := shippingCost,
                           discountAmount := totalDiscount,
                           discountCode := (appliedCoupon.map (fun a => a.code)).getD "",
                           totalAmount := finalTotal },
              appliedCoupon := appliedCoupon, automaticDiscounts := autos,
              totalAmount := finalTotal, status := .pending }
          (.ok order, { db2 with orders := db2.orders ++ [order] })

/-- The coupon handling of the update handler (PUT /orders/:id): lookup by
code only, then `isActive`, then `canBeUsed`; any failure silently yields a
zero discount and no applied-coupon record. -/
def updateResolveCoupon (db : DB) (now : Int) (code : String)
    (totalWithTaxAndShipping : Rat) : Rat × Option IAppliedCoupon :=
  match db.coupons.find? (fun c => c.code == jsToUpperCase code) with
  | none => (0, none)
  | some c =>
    if c.isActive then
      match c.canBeUsed now totalWithTaxAndShipping with
      | none =>
        let cd := c.calculateDiscount totalWithTaxAndShipping
        (cd, some { couponId := c.id, code := c.code, discountAmount := cd })
      | some _ => (0, none)
    else (0, none)

/-- PUT /orders/:id (`orderController.updateOrder`). Mongoose strips
`undefined` values from an update document, so passing
`appliedCoupon: undefined` leaves the stored field untouched; that is
modelled by falling back to the order's previous `appliedCoupon`. -/
def updateOrder (db : DB) (now : Int) (requesterId : Nat) (requesterIsAdmin : Bool)
    (orderId : Nat) (items : List ReqItem) (couponCode : Option String) :
    Except OrderError IOrder × DB :=
  match validateItems items with
  | some e => (.error e, db)
  | none =>
    match db.orders.find? (fun o => o.id == orderId) with
    | none => (.error .orderNotFound, db)
    | some order =>
      if !(order.user == requesterId || requesterIsAdmin) then (.error .forbidden, db)
      else if !(order.status == .pending || order.status == .processing)
      then (.error .cannotUpdate, db)
      else
        match buildOrderItems db items with
        | .error e => (.error e, db)
        | .ok (updatedItems, subtotal) =>
          if order.status == .confirmed || order.status == .delivered then
            let order1 := { order with items := updatedItems }
            (.ok order1, db.saveOrder order1)
          else
            let originalOrderHadDiscounts :=
              order.appliedCoupon.isSome || !order.automaticDiscounts.isEmpty
                || decide (0 < order.pricing.discountAmount)
            if !(truthyS couponCode) && !originalOrderHadDiscounts then
              let order1 := { order with items := updatedItems }
              (.ok order1, db.saveOrder order1)
            else
              let taxRate := db.pricing.taxRate.getD 0
              let shippingCost := db.pricing.shippingCost.getD 0
              let taxAmount := subtotal * taxRate
              let totalWithTaxAndShipping := subtotal + taxAmount + shippingCost
              let (couponDiscount, appliedCoupon) :=
                if truthyS couponCode && jsTrim (couponCode.getD "") != "" then
                  updateResolveCoupon db now (couponCode.getD "") totalWithTaxAndShipping
                else (0, none)
              let amountAfterCoupon := totalWithTaxAndShipping - couponDiscount
              let (autos, totalAuto) :=
                if originalOrderHadDiscounts then
                  previewDiscounts now amountAfterCoupon (totalQuantity items)
                    (activeDiscounts db now)
                else ([], 0)
              let finalTotal := amountAfterCoupon - totalAuto
              let order1 :=
                { order with
                  items := updatedItems
                  totalAmount := finalTotal
                  pricing := { subtotal := subtotal, taxRate := taxRate,
                               taxAmount := taxAmount, shippingCost := shippingCost,
                               discountAmount := couponDiscount + totalAuto,
                               discountCode := couponCode.getD "",
                               totalAmount := finalTotal }
                  appliedCoupon := (match appliedCoupon with
                                    | some a => some a
                                    | none => order.appliedCoupon)
                  automaticDiscounts := autos }
              (.ok order1, db.saveOrder order1)

/-! Lookup helpers used to state the frame theorems. -/

/-- Look a coupon up by its id. -/
def DB.lookupCoupon (db : DB) (j : Nat) : Option Coupon :=
  db.coupons.find? (fun c => c.id == j)

/-- Look a discount up by its id. -/
def DB.lookupDiscount (db : DB) (j : Nat) : Option Discount :=
  db.discounts.find? (fun d => d.id == j)

/-! Concrete fixtures used by the claim theorems. -/

/-- A one-line request: one unit of product 1. -/
def exItems : List ReqItem := [{ product := 1, quantity := 1 }]

def exProduct100 : Product := { id := 1, price := 100 }

def exProduct90 : Product := { id := 1, price := 90 }

/-- A fixed ₹10 coupon with no limits. -/
def exCouponFixed10 : Coupon :=
  { id := 1, code := "SAVE10", name := "Save 10", discountType := .fixed,
    discountValue := 10, validFrom := -10, validUntil := 10 }

/-- A 10% automatic discount with no conditions. -/
def exDiscountPct10 : Discount :=
  { id := 9, name := "Ten percent", type := .percentage, value := 10,
    validFrom := -10, validUntil := 10 }

/-- Store with 10% tax, ₹10 shipping, the fixed coupon and the 10% discount. -/
def exDbC1 : DB :=
  { products := [exProduct100], coupons := [exCouponFixed10], discounts := [exDiscountPct10],
    pricing := { taxRate := some (1/10), shippingCost := some 10 }, orders := [] }

/-- A 10% coupon with no cap. -/
def exCouponPct10 : Coupon :=
  { id := 2, code := "PCT10", name := "Pct 10", discountType := .percentage,
    discountValue := 10, validFrom := -10, validUntil := 10 }

def exDbC2 : DB :=
  { products := [exProduct100], coupons := [exCouponPct10], discounts := [],
    pricing := { taxRate := some (1/10), shippingCost := some 10 }, orders := [] }

/-- An active automatic discount requiring a ₹1000 minimum order. -/
def exDiscountMin1000 : Discount :=
  { id := 3, name := "Big spender", type := .fixed, value := 5,
    minimumOrderAmount := some 1000, validFrom := -10, validUntil := 10 }

def exDbC3 : DB :=
  { products := [exProduct100], coupons := [], discounts := [exDiscountMin1000],
    pricing := {}, orders := [] }

/-- A fixed coupon requiring a ₹100 minimum order. -/
def exCouponMin100 : Coupon :=
  { id := 4, code := "MINC", name := "Min coupon", discountType := .fixed,
    discountValue := 5, minimumOrderAmount := some 100, validFrom := -10, validUntil := 10 }

def exDbC4 : DB :=
  { products := [exProduct90], coupons := [exCouponMin100], discounts := [],
    pricing := { taxRate := some (1/10), shippingCost := some 10 }, orders := [] }

def exPricing0 : IPricing :=
  { subtotal := 100, taxRate := 0, taxAmount := 0, shippingCost := 0,
    discountAmount := 0, discountCode := "", totalAmount := 100 }

/-- A delivered order owned by user 7. -/
def exOrderDelivered : IOrder :=
  { id := 5, user := 7, items := [{ product := 1, quantity := 1, priceAtOrder := 100 }],
    pricing := exPricing0, totalAmount := 100, status := .delivered }

def exDbC5 : DB :=
  { products := [exProduct100], coupons := [], discounts := [], pricing := {},
    orders := [exOrderDelivered] }

/-- A fixed coupon with NO usage limit. -/
def exCouponNoLimit : Coupon :=
  { id := 6, code := "SAVE", name := "Save", discountType := .fixed,
    discountValue := 10, validFrom := -10, validUntil := 10 }

def exDbC6 : DB :=
  { products := [exProduct100], coupons := [exCouponNoLimit], discounts := [],
    pricing := {}, orders := [] }

def exDbC7 : DB :=
  { products := [exProduct100], coupons := [], discounts := [], pricing := {}, orders := [] }

/-- A fixed coupon with a usage limit of 5. -/
def exCouponLimit5 : Coupon :=
  { id := 8, code := "SAVE", name := "Save", discountType := .fixed,
    discountValue := 10, validFrom := -10, validUntil := 10, usageLimit := some 5 }

def exDbC8 : DB :=
  { products := [exProduct100], coupons := [exCouponLimit5], discounts := [exDiscountMin1000],
    pricing := {}, orders := [] }

/-- A 10% automatic discount scoped to category 43 and product 42, neither of
which the fixture cart contains. -/
def exDiscountScoped : Discount :=
  { id := 11, name := "Scoped", type := .percentage, value := 10,
    validFrom := -10, validUntil := 10,
    applicableCategories := [43], applicableProducts := [42] }

def exDbC9 : DB :=
  { products := [exProduct100], coupons := [], discounts := [exDiscountScoped],
    pricing := {}, orders := [] }

def exOldApplied : IAppliedCoupon := { couponId := 33, code := "OLD", discountAmount := 4 }

def exPricingOld : IPricing :=
  { subtotal := 100, taxRate := 0, taxAmount := 0, shippingCost := 0,
    discountAmount := 4, discountCode := "OLD", totalAmount := 96 }

/-- A pending order that already carries an applied-coupon record. -/
def exOrderPendingCoupon : IOrder :=
  { id := 5, user := 7, items := [{ product := 1, quantity := 1, priceAtOrder := 100 }],
    pricing := exPricingOld, appliedCoupon := some exOldApplied,
    totalAmount := 96, status := .pending }

def exDbC10 : DB :=
  { products := [exProduct100], coupons := [], discounts := [], pricing := {},
    orders := [exOrderPendingCoupon] }

/-! Claim theorems. -/

/-- C1: the spec claims preview (POST /orders/calculate) and commit
(POST /orders) produce the same pricing breakdown for the same inputs. On
the fixture store (₹100 cart, 10% tax, ₹10 shipping, fixed ₹10 coupon, 10%
automatic discount) the preview quotes a final total of ₹99 while the
commit path charges ₹101, because commit computes the post-coupon amount
from the subtotal alone (line 318) and its automatic discounts therefore
differ. -/
theorem c1_preview_commit_divergence :
    (calculateOrderAmount exDbC1 0 exItems (some "SAVE10") false).1.toOption.map
        (fun r => (r.amountAfterCoupon, r.finalTotal)) = some (110, 99)
    ∧ (createOrder exDbC1 0 7 exItems (some "SAVE10")).1.toOption.map
        (fun o => o.totalAmount) = some 101
    ∧ (99 : Rat) ≠ 101 := by
  have hup : jsToUpperCase "SAVE10" = "SAVE10" := rfl
  refine ⟨?_, ?_, by norm_num⟩
  · norm_num +decide [calculateOrderAmount, previewCouponStep, validateItems, buildOrderItems, findActiveCoupon,
      previewResolveCoupon, couponUsageExceeded, couponBelowMinimum, couponDiscountOn,
      previewDiscounts, activeDiscounts, totalQuantity, Discount.canBeApplied,
      Discount.isValidAt, Discount.calculateDiscount, Discount.summary, Coupon.isValidAt,
      truthyQ, truthyN, truthyS, hup, exDbC1, exItems, exProduct100, exCouponFixed10,
      exDiscountPct10]
  · norm_num +decide [createOrder, createCouponStep, validateItems, buildOrderItems, findActiveCoupon,
      createResolveCoupon, couponUsageExceeded, couponBelowMinimum, couponDiscountOn,
      createDiscountsLoop, activeDiscounts, totalQuantity, Discount.canBeApplied,
      Discount.isValidAt, Discount.calculateDiscount, Discount.summary, Coupon.isValidAt,
      Discount.incrementUsage, Coupon.incrementUsage, DB.saveCoupon, DB.saveDiscount,
      truthyQ, truthyN, truthyS, hup, exDbC1, exItems, exProduct100, exCouponFixed10,
      exDiscountPct10]

/-- C2 counterexample: the claim computes a valid percentage coupon's
discount as `min(A * pct/100, cap)` with `A = subtotal + tax + shipping`.
On the fixture (subtotal ₹100, A = ₹120, 10% coupon, no cap) the code
produces ₹10 = subtotal × 10%, not ₹12 = A × 10%. -/
theorem c2_counterexample :
    (calculateOrderAmount exDbC2 0 exItems (some "PCT10") false).1.toOption.map
        (fun r => (r.couponDiscount, r.subtotal + r.taxAmount + r.shippingCost)) =
      some (10, 120)
    ∧ (10 : Rat) ≠ 120 * (10 / 100) := by
  have hup : jsToUpperCase "PCT10" = "PCT10" := rfl
  constructor
  · norm_num +decide [calculateOrderAmount, previewCouponStep, validateItems, buildOrderItems, findActiveCoupon,
      previewResolveCoupon, couponUsageExceeded, couponBelowMinimum, couponDiscountOn,
      previewDiscounts, activeDiscounts, totalQuantity, truthyQ, truthyN, truthyS, hup,
      Except.toOption, exDbC2, exItems, exProduct100, exCouponPct10]
  · norm_num

/-- C4 counterexample: the claim says coupon resolution fails with the
minimum-order error exactly when `A = subtotal + tax + shipping` is below
the coupon's minimum. On the fixture the minimum is ₹100 and
A = 90 + 9 + 10 = ₹109 ≥ ₹100, yet both the preview and the commit path
reject, because the code compares the minimum against the subtotal (₹90). -/
theorem c4_counterexample :
    (calculateOrderAmount exDbC4 0 exItems (some "MINC") false).1 =
      .error (.minimumOrderNotMet (minimumOrderMessage 100))
    ∧ (createOrder exDbC4 0 7 exItems (some "MINC")).1 =
      .error (.minimumOrderNotMet (minimumOrderMessage 100))
    ∧ ((90 : Rat) + 90 * (1/10) + 10 = 109) ∧ ((100 : Rat) ≤ 109) := by
  have hup : jsToUpperCase "MINC" = "MINC" := rfl
  refine ⟨?_, ?_, by norm_num, by norm_num⟩
  · norm_num +decide [calculateOrderAmount, previewCouponStep, validateItems, buildOrderItems, findActiveCoupon,
      previewResolveCoupon, couponUsageExceeded, couponBelowMinimum, couponDiscountOn,
      truthyQ, truthyN, truthyS, hup, exDbC4, exItems, exProduct90, exCouponMin100]
  · norm_num +decide [createOrder, createCouponStep, validateItems, buildOrderItems, findActiveCoupon,
      createResolveCoupon, couponUsageExceeded, couponBelowMinimum, couponDiscountOn,
      truthyQ, truthyN, truthyS, hup, exDbC4, exItems, exProduct90, exCouponMin100]

/-- C7 counterexample: the claim says an invalid coupon in preview mode does
not abort the calculation and yields a zero discount with a warning. On a
store with no coupons, POST /orders/calculate with code "NOPE" aborts with
the coupon-not-found error. -/
theorem c7_counterexample :
    (calculateOrderAmount exDbC7 0 exItems (some "NOPE") false).1 =
      .error .couponNotFound := by
  norm_num +decide [calculateOrderAmount, previewCouponStep, validateItems, buildOrderItems, findActiveCoupon,
    truthyQ, truthyN, truthyS, exDbC7, exItems, exProduct100]

/-- C9 counterexample: the claim says a discount scoped by
`applicableCategories`/`applicableProducts` is skipped unless a line item
matches. The fixture discount is scoped to category 43 / product 42 and the
cart contains only product 1, yet the discount is applied (₹10 on ₹100). -/
theorem c9_counterexample :
    (calculateOrderAmount exDbC9 0 exItems none false).1.toOption.map
        (fun r => (r.automaticDiscounts.map (fun a => a.discount.id),
                   r.totalAutomaticDiscount)) = some ([11], 10)
    ∧ exDiscountScoped.applicableProducts = [42]
    ∧ exDiscountScoped.applicableCategories = [43]
    ∧ exItems.map (fun it => it.product) = [1] := by
  refine ⟨?_, rfl, rfl, rfl⟩
  norm_num +decide [calculateOrderAmount, previewCouponStep, validateItems, buildOrderItems, findActiveCoupon,
    previewResolveCoupon, previewDiscounts, activeDiscounts, totalQuantity,
    Discount.canBeApplied, Discount.isValidAt, Discount.calculateDiscount, Discount.summary,
    truthyQ, truthyN, truthyS, exDbC9, exItems, exProduct100, exDiscountScoped]

/-- C3 counterexample: the claim says that on every pricing path, including
commit, a non-qualifying active discount is skipped without error. On a
store whose only active discount requires a ₹1000 minimum, a ₹100 cart
previews fine (discount skipped) but POST /orders aborts with a
discount-validation error, even though the discount was never eligible. -/
theorem c3_counterexample :
    (calculateOrderAmount exDbC3 0 exItems none false).1.toOption.map
        (fun r => (r.automaticDiscounts.length, r.totalAutomaticDiscount, r.finalTotal)) =
      some (0, 0, 100)
    ∧ (createOrder exDbC3 0 7 exItems none).1 =
      .error (.discountValidationFailed
        ("Minimum order amount of ₹" ++ toString (1000 : Rat) ++ " required")) := by
  constructor
  · norm_num +decide [calculateOrderAmount, previewCouponStep, validateItems, buildOrderItems, findActiveCoupon,
      previewResolveCoupon, previewDiscounts, activeDiscounts, totalQuantity,
      Discount.canBeApplied, Discount.isValidAt, Discount.calculateDiscount, Discount.summary,
      truthyQ, truthyN, truthyS, Except.toOption, exDbC3, exItems, exProduct100,
      exDiscountMin1000]
  · norm_num +decide [createOrder, createCouponStep, validateItems, buildOrderItems, findActiveCoupon,
      createDiscountsLoop, activeDiscounts, totalQuantity,
      Discount.canBeApplied, Discount.isValidAt, Discount.calculateDiscount, Discount.summary,
      truthyQ, truthyN, truthyS, exDbC3, exItems, exProduct100, exDiscountMin1000]

/-- C5 counterexample: the claim says a PUT /orders/:id on a delivered order
updates the line items while preserving the pricing block. The code rejects
the update outright: on the fixture delivered order the handler returns the
cannot-update error and leaves the whole store (items included) untouched,
so no item update takes place at all. -/
theorem c5_counterexample :
    updateOrder exDbC5 0 7 false 5 exItems none = (.error .cannotUpdate, exDbC5)
    ∧ exOrderDelivered.status = .delivered := by
  constructor
  · norm_num +decide [updateOrder, validateItems, buildOrderItems,
      truthyQ, truthyN, truthyS, exDbC5, exItems, exProduct100, exOrderDelivered, exPricing0]
  · rfl

/-- C6 counterexample: the claim says the applied coupon's `usedCount` is
incremented exactly once per created order. For a coupon with no
`usageLimit`, `incrementUsage` is a no-op: the fixture order is created with
the coupon applied, yet the stored `usedCount` stays 0. -/
theorem c6_counterexample :
    (createOrder exDbC6 0 7 exItems (some "SAVE")).1.toOption.map
        (fun o => o.appliedCoupon.map (fun a => a.couponId)) = some (some 6)
    ∧ (createOrder exDbC6 0 7 exItems (some "SAVE")).2.coupons.map
        (fun c => (c.id, c.usedCount)) = [(6, 0)]
    ∧ exCouponNoLimit.usageLimit = none := by
  have hup : jsToUpperCase "SAVE" = "SAVE" := rfl
  refine ⟨?_, ?_, rfl⟩ <;>
  norm_num +decide [createOrder, createCouponStep, validateItems, buildOrderItems, findActiveCoupon,
    createResolveCoupon, couponUsageExceeded, couponBelowMinimum, couponDiscountOn,
    createDiscountsLoop, activeDiscounts, totalQuantity, Coupon.incrementUsage,
    DB.saveCoupon, truthyQ, truthyN, truthyS, Except.toOption, hup,
    exDbC6, exItems, exProduct100, exCouponNoLimit]

/-- C8 counterexample: the claim says a failed POST /orders persists nothing
— no order and no usage increment. On the fixture store the coupon (limit 5)
is resolved and incremented, then the ₹1000-minimum discount fails
validation and the request errors: no order is written, but the coupon's
`usedCount` is left at 1. -/
theorem c8_counterexample :
    (createOrder exDbC8 0 7 exItems (some "SAVE")).1 =
      .error (.discountValidationFailed
        ("Minimum order amount of ₹" ++ toString (1000 : Rat) ++ " required"))
    ∧ (createOrder exDbC8 0 7 exItems (some "SAVE")).2.orders = []
    ∧ (createOrder exDbC8 0 7 exItems (some "SAVE")).2.coupons.map
        (fun c => (c.id, c.usedCount)) = [(8, 1)] := by
  have hup : jsToUpperCase "SAVE" = "SAVE" := rfl
  refine ⟨?_, ?_, ?_⟩ <;>
  norm_num +decide [createOrder, createCouponStep, validateItems, buildOrderItems, findActiveCoupon,
    createResolveCoupon, couponUsageExceeded, couponBelowMinimum, couponDiscountOn,
    createDiscountsLoop, activeDiscounts, totalQuantity, Coupon.incrementUsage,
    DB.saveCoupon, DB.saveDiscount, Discount.canBeApplied, Discount.isValidAt,
    Discount.calculateDiscount, truthyQ, truthyN, truthyS, hup,
    exDbC8, exItems, exProduct100, exCouponLimit5, exDiscountMin1000]

/-- C10 counterexample: the claim says that when PUT /orders/:id is given a
coupon code that cannot be resolved, the update succeeds with the code
stored in `pricing.discountCode` and `appliedCoupon` left unset. On an
order that already carried an applied-coupon record, the update does
succeed and stores the bad code, but `appliedCoupon` is NOT unset: mongoose
drops the `undefined` field from the update, so the stale record survives. -/
theorem c10_counterexample :
    (updateOrder exDbC10 0 7 false 5 exItems (some "BAD")).1.toOption.map
        (fun o => (o.pricing.discountCode, o.appliedCoupon, o.pricing.discountAmount)) =
      some ("BAD", some exOldApplied, 0)
    ∧ some exOldApplied ≠ (none : Option IAppliedCoupon) := by
  have htr : jsTrim "BAD" = "BAD" := rfl
  refine ⟨?_, by simp⟩
  norm_num +decide [updateOrder, validateItems, buildOrderItems, updateResolveCoupon,
    previewDiscounts, activeDiscounts, totalQuantity, DB.saveOrder,
    truthyQ, truthyN, truthyS, Except.toOption, htr,
    exDbC10, exItems, exProduct100, exOrderPendingCoupon, exPricingOld, exOldApplied]

/-- C9 (amended): discount resolution never consults the scope fields —
`canBeApplied` and `calculateDiscount` are invariant under replacing
`applicableCategories`/`applicableProducts` with anything. Eligibility
checks only the validity window/usage, the minimum order amount, and the
bulk threshold. -/
theorem c9_amended_scope_ignored (d : Discount) (cats prods : List Nat)
    (now : Int) (a : Rat) (q : Nat) :
    Discount.canBeApplied
        { d with applicableCategories := cats, applicableProducts := prods } now a q
      = d.canBeApplied now a q
    ∧ Discount.calculateDiscount
        { d with applicableCategories := cats, applicableProducts := prods } a q
      = d.calculateDiscount a q := by
  constructor <;> rfl

/-- C2 (amended): for a percentage coupon the inline coupon computation of
the calculate and create handlers yields
`min(subtotal * pct/100, maximumDiscount)` when a cap is set (the uncapped
product otherwise) — the percentage is taken of the SUBTOTAL, not of
subtotal + tax + shipping — and under the schema invariant `pct ≤ 100`
with nonnegative amounts the discount still never exceeds
subtotal + tax + shipping. -/
theorem c2_amended_coupon_discount (c : Coupon) (subtotal taxAmount shippingCost : Rat)
    (hk : c.discountType = .percentage)
    (hv : c.discountValue ≤ 100)
    (hs : 0 ≤ subtotal) (ht : 0 ≤ taxAmount) (hsh : 0 ≤ shippingCost) :
    couponDiscountOn c subtotal =
      (if truthyQ c.maximumDiscount
       then min (subtotal * (c.discountValue / 100)) (c.maximumDiscount.getD 0)
       else subtotal * (c.discountValue / 100))
    ∧ couponDiscountOn c subtotal ≤ subtotal + taxAmount + shippingCost := by
  have hbase : subtotal * (c.discountValue / 100) ≤ subtotal := by
    calc subtotal * (c.discountValue / 100) ≤ subtotal * 1 := by
          apply mul_le_mul_of_nonneg_left _ hs
          linarith
      _ = subtotal := mul_one subtotal
  have hshape : couponDiscountOn c subtotal =
      (if truthyQ c.maximumDiscount
       then min (subtotal * (c.discountValue / 100)) (c.maximumDiscount.getD 0)
       else subtotal * (c.discountValue / 100)) := by
    unfold couponDiscountOn
    rw [hk]
  refine ⟨hshape, ?_⟩
  rw [hshape]
  by_cases hcap : truthyQ c.maximumDiscount
  · simp only [hcap, if_true]
    calc min (subtotal * (c.discountValue / 100)) (c.maximumDiscount.getD 0)
        ≤ subtotal * (c.discountValue / 100) := min_le_left _ _
      _ ≤ subtotal := hbase
      _ ≤ subtotal + taxAmount + shippingCost := by linarith
  · simp only [hcap, if_false]
    calc subtotal * (c.discountValue / 100) ≤ subtotal := hbase
      _ ≤ subtotal + taxAmount + shippingCost := by linarith

/-- Witness for `c2_amended_coupon_discount` at the fixture 10% coupon with
subtotal ₹100, tax ₹10, shipping ₹10. -/
theorem c2_amended_coupon_discount_witness :
    couponDiscountOn exCouponPct10 100 = 100 * ((10 : Rat) / 100)
    ∧ couponDiscountOn exCouponPct10 100 ≤ 100 + 10 + 10 := by
  have h := c2_amended_coupon_discount exCouponPct10 100 10 10 rfl
    (by norm_num [exCouponPct10])
    (by norm_num) (by norm_num) (by norm_num)
  refine ⟨?_, h.2⟩
  rw [h.1]
  norm_num [exCouponPct10, truthyQ]

/-- C4 (amended): the coupon minimum-order check of the calculate and create
handlers compares `minimumOrderAmount` against the SUBTOTAL, not against
subtotal + tax + shipping: the create-path resolver fails with the
minimum-order error exactly when the minimum is set (truthy) and
`subtotal < minimumOrderAmount`; the calculate-path resolver does the same
once the usage-limit check has passed; and the failure message embeds the
minimum amount. -/
theorem c4_amended_minimum_check (c : Coupon) (subtotal : Rat) :
    ((∃ m, createResolveCoupon c subtotal = .error (.minimumOrderNotMet m)) ↔
      (truthyQ c.minimumOrderAmount = true ∧ subtotal < c.minimumOrderAmount.getD 0))
    ∧ (couponUsageExceeded c = false →
        ((∃ m, previewResolveCoupon c subtotal = .error (.minimumOrderNotMet m)) ↔
          (truthyQ c.minimumOrderAmount = true ∧ subtotal < c.minimumOrderAmount.getD 0)))
    ∧ ∃ pre post, minimumOrderMessage (c.minimumOrderAmount.getD 0) =
        pre ++ toString (c.minimumOrderAmount.getD 0) ++ post := by
  have hbm : couponBelowMinimum c subtotal = true ↔
      (truthyQ c.minimumOrderAmount = true ∧ subtotal < c.minimumOrderAmount.getD 0) := by
    simp [couponBelowMinimum]
  refine ⟨?_, ?_, ⟨"Minimum order amount of ₹", " required for this coupon", rfl⟩⟩
  · constructor
    · rintro ⟨m, hm⟩
      unfold createResolveCoupon at hm
      by_cases hb : couponBelowMinimum c subtotal = true
      · exact hbm.mp hb
      · rw [if_neg hb] at hm
        by_cases hu : couponUsageExceeded c = true
        · rw [if_pos hu] at hm
          exact absurd hm (by simp)
        · rw [if_neg hu] at hm
          exact absurd hm (by simp)
    · intro h
      refine ⟨minimumOrderMessage (c.minimumOrderAmount.getD 0), ?_⟩
      unfold createResolveCoupon
      rw [if_pos (hbm.mpr h)]
  · intro hu
    constructor
    · rintro ⟨m, hm⟩
      unfold previewResolveCoupon at hm
      rw [if_neg (by simp [hu])] at hm
      by_cases hb : couponBelowMinimum c subtotal = true
      · exact hbm.mp hb
      · rw [if_neg hb] at hm
        exact absurd hm (by simp)
    · intro h
      refine ⟨minimumOrderMessage (c.minimumOrderAmount.getD 0), ?_⟩
      unfold previewResolveCoupon
      rw [if_neg (by simp [hu]), if_pos (hbm.mpr h)]

/-- Witness for `c4_amended_minimum_check` at the fixture ₹100-minimum
coupon with subtotal ₹90. -/
theorem c4_amended_minimum_check_witness :
    ∃ m, createResolveCoupon exCouponMin100 90 = .error (.minimumOrderNotMet m) := by
  exact (c4_amended_minimum_check exCouponMin100 90).1.mpr
    ⟨by norm_num [exCouponMin100, truthyQ], by norm_num [exCouponMin100]⟩

/-- C5 (amended): an order in `confirmed` or `delivered` status cannot be
edited at all through PUT /orders/:id: the handler rejects the request with
the cannot-update error before any write, leaving the store — items and
pricing block alike — unchanged. The item-only "preserve" branch for
confirmed/delivered orders is unreachable dead code. -/
theorem c5_amended_fulfilled_orders_rejected (db : DB) (now : Int) (uid : Nat)
    (adm : Bool) (oid : Nat) (items : List ReqItem) (cc : Option String) (order : IOrder)
    (hval : validateItems items = none)
    (hfind : db.orders.find? (fun o => o.id == oid) = some order)
    (hauth : (order.user == uid || adm) = true)
    (hstat : order.status = .confirmed ∨ order.status = .delivered) :
    updateOrder db now uid adm oid items cc = (.error .cannotUpdate, db) := by
  rcases hstat with h | h <;>
  · unfold updateOrder
    rw [hval, hfind]
    simp [hauth, h]

/-- Witness for `c5_amended_fulfilled_orders_rejected` at the fixture
delivered order. -/
theorem c5_amended_fulfilled_orders_rejected_witness :
    updateOrder exDbC5 0 7 false 5 exItems none = (.error .cannotUpdate, exDbC5) := by
  exact c5_amended_fulfilled_orders_rejected exDbC5 0 7 false 5 exItems none
    exOrderDelivered (by norm_num [validateItems, exItems])
    (by norm_num +decide [exDbC5, exOrderDelivered, exPricing0]) (by decide) (Or.inr rfl)

/-- C7 (amended): there is no preview-mode softness for coupons: a coupon
code that resolves to no active coupon aborts POST /orders/calculate with
the coupon-not-found error exactly as POST /orders does. The soft path is
PUT /orders/:id, where the same failing code leaves the update successful
(zero coupon discount). -/
theorem c7_amended_preview_aborts_update_soft
    (db : DB) (now : Int) (items : List ReqItem) (cc : String) (p : Bool)
    (user uid : Nat) (adm : Bool) (oid : Nat) (order : IOrder)
    (its : List OrderItem) (st : Rat)
    (hval : validateItems items = none)
    (hbuild : buildOrderItems db items = .ok (its, st))
    (hcc : cc ≠ "")
    (htrim : jsTrim cc ≠ "")
    (hnf : findActiveCoupon db now cc = none)
    (hnf2 : db.coupons.find? (fun c => c.code == jsToUpperCase cc) = none)
    (hfind : db.orders.find? (fun o => o.id == oid) = some order)
    (hauth : (order.user == uid || adm) = true)
    (hstat : order.status = .pending) :
    (calculateOrderAmount db now items (some cc) p).1 = .error .couponNotFound
    ∧ (createOrder db now user items (some cc)).1 = .error .couponNotFound
    ∧ ∃ o1, (updateOrder db now uid adm oid items (some cc)).1 = .ok o1 := by
  refine ⟨?_, ?_, ?_⟩
  · simp [calculateOrderAmount, previewCouponStep, hval, hbuild, truthyS, hcc, hnf]
  · simp [createOrder, createCouponStep, hval, hbuild, truthyS, hcc, hnf]
  · simp [updateOrder, hval, hfind, hauth, hstat, hbuild, truthyS, hcc, htrim,
      updateResolveCoupon, hnf2]

/-- Witness for `c7_amended_preview_aborts_update_soft` on the fixture store
with the unknown code "BAD". -/
theorem c7_amended_preview_aborts_update_soft_witness :
    (calculateOrderAmount exDbC10 0 exItems (some "BAD") false).1 = .error .couponNotFound
    ∧ (createOrder exDbC10 0 7 exItems (some "BAD")).1 = .error .couponNotFound
    ∧ ∃ o1, (updateOrder exDbC10 0 7 false 5 exItems (some "BAD")).1 = .ok o1 := by
  exact c7_amended_preview_aborts_update_soft exDbC10 0 exItems "BAD" false 7 7 false 5
    exOrderPendingCoupon [{ product := 1, quantity := 1, priceAtOrder := 100 }] 100
    (by norm_num [validateItems, exItems])
    (by norm_num +decide [buildOrderItems, exDbC10, exItems, exProduct100])
    (by decide) (by decide) rfl rfl
    (by norm_num +decide [exDbC10, exOrderPendingCoupon, exPricingOld, exOldApplied])
    (by decide) rfl

/-- A coupon lookup that fails any of the update path's checks (not found,
inactive, or `canBeUsed` failing) resolves to a zero discount and no
applied-coupon record. -/
theorem updateResolveCoupon_fails (db : DB) (now : Int) (cc : String) (amt : Rat)
    (hbad : db.coupons.find? (fun c0 => c0.code == jsToUpperCase cc) = none
      ∨ ∃ c0, db.coupons.find? (fun c1 => c1.code == jsToUpperCase cc) = some c0
          ∧ (c0.isActive = false ∨ c0.canBeUsed now amt ≠ none)) :
    updateResolveCoupon db now cc amt = (0, none) := by
  unfold updateResolveCoupon
  rcases hbad with h | ⟨c0, h, hc⟩
  · rw [h]
  · rw [h]
    rcases hc with hc | hc
    · simp [hc]
    · by_cases ha : c0.isActive = true
      · cases hcb : c0.canBeUsed now amt with
        | none => exact absurd hcb hc
        | some r => simp [ha, hcb]
      · simp [ha]

/-- C10 (amended): on the PUT /orders/:id repricing path, a supplied coupon
code that is not found, inactive, or failing `canBeUsed` still lets the
update succeed; the supplied code is written into `pricing.discountCode`
and no coupon discount enters `pricing.discountAmount` (only automatic
discounts do). The stored `appliedCoupon` field, however, is NOT cleared:
mongoose strips the `undefined` value from the update, so the order's
previous record (if any) survives. A non-empty stored `discountCode`
therefore does not imply an applied coupon discount. -/
theorem c10_amended_update_writes_code_without_coupon
    (db : DB) (now : Int) (uid : Nat) (adm : Bool) (oid : Nat)
    (items : List ReqItem) (cc : String) (order : IOrder)
    (its : List OrderItem) (st : Rat)
    (hval : validateItems items = none)
    (hfind : db.orders.find? (fun o => o.id == oid) = some order)
    (hauth : (order.user == uid || adm) = true)
    (hstat : order.status = .pending ∨ order.status = .processing)
    (hbuild : buildOrderItems db items = .ok (its, st))
    (hcc : cc ≠ "") (htrim : jsTrim cc ≠ "")
    (hbad : db.coupons.find? (fun c0 => c0.code == jsToUpperCase cc) = none
      ∨ ∃ c0, db.coupons.find? (fun c1 => c1.code == jsToUpperCase cc) = some c0
          ∧ (c0.isActive = false
             ∨ c0.canBeUsed now
                 (st + st * db.pricing.taxRate.getD 0 + db.pricing.shippingCost.getD 0)
               ≠ none)) :
    ∃ o1, (updateOrder db now uid adm oid items (some cc)).1 = .ok o1
      ∧ o1.pricing.discountCode = cc
      ∧ o1.appliedCoupon = order.appliedCoupon
      ∧ o1.pricing.discountAmount =
          (if (order.appliedCoupon.isSome || !order.automaticDiscounts.isEmpty
                || decide (0 < order.pricing.discountAmount)) = true
           then previewDiscounts now
                  (st + st * db.pricing.taxRate.getD 0 + db.pricing.shippingCost.getD 0)
                  (totalQuantity items) (activeDiscounts db now)
           else ([], 0)).2 := by
  have hfail := updateResolveCoupon_fails db now cc
    (st + st * db.pricing.taxRate.getD 0 + db.pricing.shippingCost.getD 0) hbad
  rcases hstat with h | h <;>
  · simp [updateOrder, hval, hfind, hauth, h, hbuild, truthyS, hcc, htrim, hfail]

/-- Witness for `c10_amended_update_writes_code_without_coupon` on the
fixture pending order that already holds an applied-coupon record. -/
theorem c10_amended_update_writes_code_without_coupon_witness :
    ∃ o1, (updateOrder exDbC10 0 7 false 5 exItems (some "BAD")).1 = .ok o1
      ∧ o1.pricing.discountCode = "BAD"
      ∧ o1.appliedCoupon = exOrderPendingCoupon.appliedCoupon
      ∧ o1.pricing.discountAmount =
          (if (exOrderPendingCoupon.appliedCoupon.isSome
                || !exOrderPendingCoupon.automaticDiscounts.isEmpty
                || decide (0 < exOrderPendingCoupon.pricing.discountAmount)) = true
           then previewDiscounts 0
                  (100 + 100 * exDbC10.pricing.taxRate.getD 0
                     + exDbC10.pricing.shippingCost.getD 0)
                  (totalQuantity exItems) (activeDiscounts exDbC10 0)
           else ([], 0)).2 := by
  exact c10_amended_update_writes_code_without_coupon exDbC10 0 7 false 5 exItems "BAD"
    exOrderPendingCoupon [{ product := 1, quantity := 1, priceAtOrder := 100 }] 100
    (by norm_num [validateItems, exItems])
    (by norm_num +decide [exDbC10, exOrderPendingCoupon, exPricingOld, exOldApplied])
    (by decide) (Or.inl rfl)
    (by norm_num +decide [buildOrderItems, exDbC10, exItems, exProduct100])
    (by decide) (by decide) (Or.inl rfl)

theorem createDiscountsLoop_error_of_fail (now : Int) (a : Rat) (q : Nat) :
    ∀ (ds : List Discount) (db : DB) (d : Discount) (r : String),
      d ∈ ds → d.canBeApplied now a q = some r →
      ∃ msg, (createDiscountsLoop now a q ds db).1 =
        .error (.discountValidationFailed msg) := by
  intro ds
  induction ds with
  | nil =>
    intro db d r h
    cases h
  | cons hd tl ih =>
    intro db d r hmem hfail
    cases hh : hd.canBeApplied now a q with
    | some reason =>
      exact ⟨reason, by simp [createDiscountsLoop, hh]⟩
    | none =>
      rcases List.mem_cons.mp hmem with rfl | hmem'
      · rw [hh] at hfail
        cases hfail
      · by_cases hamt : 0 < hd.calculateDiscount a q
        · obtain ⟨msg, hmsg⟩ := ih (db.saveDiscount hd.incrementUsage) d r hmem' hfail
          refine ⟨msg, ?_⟩
          rcases hrec : createDiscountsLoop now a q tl (db.saveDiscount hd.incrementUsage)
            with ⟨res, db2⟩
          rw [hrec] at hmsg
          simp only at hmsg
          subst hmsg
          simp [createDiscountsLoop, hh, hamt, hrec]
        · obtain ⟨msg, hmsg⟩ := ih db d r hmem' hfail
          refine ⟨msg, ?_⟩
          simpa [createDiscountsLoop, hh, hamt] using hmsg

theorem previewDiscounts_mem (now : Int) (a : Rat) (q : Nat) :
    ∀ (ds : List Discount) (rec : AppliedDiscount), rec ∈ (previewDiscounts now a q ds).1 →
      ∃ d', d' ∈ ds ∧ d'.canBeApplied now a q = none
        ∧ rec = { discount := d'.summary, discountAmount := d'.calculateDiscount a q }
        ∧ 0 < rec.discountAmount := by
  intro ds
  induction ds with
  | nil =>
    intro rec h
    simp [previewDiscounts] at h
  | cons hd tl ih =>
    intro rec h
    rcases hp : previewDiscounts now a q tl with ⟨l, t⟩
    cases hh : hd.canBeApplied now a q with
    | some r =>
      rw [show (previewDiscounts now a q (hd :: tl)).1 = l by
        simp [previewDiscounts, hp, hh]] at h
      obtain ⟨d', hm, hc, he, hpos⟩ := ih rec (by rw [hp]; exact h)
      exact ⟨d', List.mem_cons_of_mem _ hm, hc, he, hpos⟩
    | none =>
      by_cases hamt : 0 < hd.calculateDiscount a q
      · rw [show (previewDiscounts now a q (hd :: tl)).1 =
            { discount := hd.summary, discountAmount := hd.calculateDiscount a q } :: l by
          simp [previewDiscounts, hp, hh, hamt]] at h
        rcases List.mem_cons.mp h with rfl | h'
        · exact ⟨hd, List.mem_cons_self _ _, hh, rfl, hamt⟩
        · obtain ⟨d', hm, hc, he, hpos⟩ := ih rec (by rw [hp]; exact h')
          exact ⟨d', List.mem_cons_of_mem _ hm, hc, he, hpos⟩
      · rw [show (previewDiscounts now a q (hd :: tl)).1 = l by
          simp [previewDiscounts, hp, hh, hamt]] at h
        obtain ⟨d', hm, hc, he, hpos⟩ := ih rec (by rw [hp]; exact h)
        exact ⟨d', List.mem_cons_of_mem _ hm, hc, he, hpos⟩

/-- C3 (amended): a non-qualifying active discount is skipped on the
preview/update loop — every entry of the returned list comes from a
discount that passed `canBeApplied` with a positive amount — but on the
commit loop (POST /orders) the presence of ANY failing discount, eligible
at preview time or not, aborts the order with a discount-validation
error. -/
theorem c3_amended_discount_skip_vs_abort (now : Int) (a : Rat) (q : Nat)
    (ds : List Discount) (db : DB) (d : Discount) (r : String)
    (hmem : d ∈ ds) (hfail : d.canBeApplied now a q = some r) :
    (∃ msg, (createDiscountsLoop now a q ds db).1 =
        .error (.discountValidationFailed msg))
    ∧ ∀ rec ∈ (previewDiscounts now a q ds).1,
        ∃ d', d' ∈ ds ∧ d'.canBeApplied now a q = none
          ∧ rec = { discount := d'.summary, discountAmount := d'.calculateDiscount a q }
          ∧ 0 < rec.discountAmount :=
  ⟨createDiscountsLoop_error_of_fail now a q ds db d r hmem hfail,
   fun rec h => previewDiscounts_mem now a q ds rec h⟩

/-- Witness for `c3_amended_discount_skip_vs_abort` at the fixture
₹1000-minimum discount against a ₹100 amount. -/
theorem c3_amended_discount_skip_vs_abort_witness :
    (∃ msg, (createDiscountsLoop 0 100 1 [exDiscountMin1000] exDbC3).1 =
        .error (.discountValidationFailed msg))
    ∧ ∀ rec ∈ (previewDiscounts 0 100 1 [exDiscountMin1000]).1,
        ∃ d', d' ∈ [exDiscountMin1000] ∧ d'.canBeApplied 0 100 1 = none
          ∧ rec = { discount := d'.summary, discountAmount := d'.calculateDiscount 100 1 }
          ∧ 0 < rec.discountAmount := by
  exact c3_amended_discount_skip_vs_abort 0 100 1 [exDiscountMin1000] exDbC3
    exDiscountMin1000 ("Minimum order amount of ₹" ++ toString (1000 : Rat) ++ " required")
    (by simp)
    (by norm_num +decide [Discount.canBeApplied, Discount.isValidAt, truthyQ, truthyN,
      exDiscountMin1000])

/-- The create-path discount loop writes only discount documents: products,
coupons, orders and settings pass through untouched. -/
theorem createDiscountsLoop_state (now : Int) (a : Rat) (q : Nat) :
    ∀ (ds : List Discount) (db : DB),
      ((createDiscountsLoop now a q ds db).2).orders = db.orders
      ∧ ((createDiscountsLoop now a q ds db).2).coupons = db.coupons
      ∧ ((createDiscountsLoop now a q ds db).2).products = db.products
      ∧ ((createDiscountsLoop now a q ds db).2).pricing = db.pricing := by
  intro ds
  induction ds with
  | nil =>
    intro db
    exact ⟨rfl, rfl, rfl, rfl⟩
  | cons hd tl ih =>
    intro db
    cases hh : hd.canBeApplied now a q with
    | some r => simp [createDiscountsLoop, hh]
    | none =>
      by_cases hamt : 0 < hd.calculateDiscount a q
      · rcases hrec : createDiscountsLoop now a q tl (db.saveDiscount hd.incrementUsage)
          with ⟨res, db2⟩
        have h2 := ih (db.saveDiscount hd.incrementUsage)
        rw [hrec] at h2
        cases res with
        | ok v =>
          simp only [createDiscountsLoop, hh, if_pos hamt, hrec]
          rcases v with ⟨l, t⟩
          simpa [DB.saveDiscount] using h2
        | error e =>
          simp only [createDiscountsLoop, hh, if_pos hamt, hrec]
          simpa [DB.saveDiscount] using h2
      · simpa [createDiscountsLoop, hh, hamt] using ih db

/-- A successful coupon step writes only the coupon collection. -/
theorem createCouponStep_state (db : DB) (now : Int) (cc : Option String) (st : Rat)
    (cd : Rat) (ac : Option IAppliedCoupon) (db1 : DB)
    (h : createCouponStep db now cc st = .ok (cd, ac, db1)) :
    db1.orders = db.orders ∧ db1.discounts = db.discounts
      ∧ db1.products = db.products ∧ db1.pricing = db.pricing := by
  unfold createCouponStep at h
  by_cases ht : truthyS cc = true
  · rw [if_pos ht] at h
    cases hf : findActiveCoupon db now (cc.getD "") with
    | none =>
      simp only [hf] at h
      exact Except.noConfusion h
    | some c =>
      simp only [hf] at h
      cases hr : createResolveCoupon c st with
      | error e =>
        simp only [hr] at h
        exact Except.noConfusion h
      | ok cd2 =>
        simp only [hr, Except.ok.injEq, Prod.mk.injEq] at h
        obtain ⟨h1, h2, h3⟩ := h
        subst h3
        simp [DB.saveCoupon]
  · rw [if_neg ht] at h
    simp only [Except.ok.injEq, Prod.mk.injEq] at h
    obtain ⟨h1, h2, h3⟩ := h
    subst h3
    exact ⟨rfl, rfl, rfl, rfl⟩

/-- C8 (amended): POST /orders appends the order document exactly when it
succeeds — on any failure no order is written (the counterexample shows
usage counters incremented before the failure do persist, so creation is
not all-or-nothing for counters, only for the order document itself). -/
theorem c8_amended_no_order_on_failure (db : DB) (now : Int) (user : Nat)
    (items : List ReqItem) (cc : Option String) :
    (createOrder db now user items cc).2.orders =
      db.orders ++ (match (createOrder db now user items cc).1 with
                    | .ok o => [o]
                    | .error _ => []) := by
  unfold createOrder
  cases hval : validateItems items with
  | some e => simp [hval]
  | none =>
    cases hbuild : buildOrderItems db items with
    | error e => simp [hval, hbuild]
    | ok pr =>
      rcases pr with ⟨its, st⟩
      cases hstep : createCouponStep db now cc st with
      | error e => simp [hval, hbuild, hstep]
      | ok tri =>
        rcases tri with ⟨cd, ac, db1⟩
        have h1 := (createCouponStep_state db now cc st cd ac db1 hstep).1
        rcases hloop : createDiscountsLoop now (st - cd) (totalQuantity items)
            (activeDiscounts db1 now) db1 with ⟨res, db2⟩
        have h0 := (createDiscountsLoop_state now (st - cd) (totalQuantity items)
          (activeDiscounts db1 now) db1).1
        rw [hloop] at h0
        have h2 : db2.orders = db1.orders := h0
        cases res with
        | error e => simp [hval, hbuild, hstep, hloop, h2, h1]
        | ok v =>
          rcases v with ⟨autos, totalAuto⟩
          simp [hval, hbuild, hstep, hloop, h2, h1]

theorem find?_map_replace {α : Type} (idOf : α → Nat) (l : List α) (c : α) (j : Nat) :
    (l.map (fun x => if idOf x == idOf c then c else x)).find? (fun x => idOf x == j)
      = if idOf c == j then (l.find? (fun x => idOf x == j)).map (fun _ => c)
        else l.find? (fun x => idOf x == j) := by
  induction l with
  | nil => simp
  | cons x xs ih =>
    simp only [List.map_cons]
    by_cases hx : idOf x = idOf c
    · rw [show (if idOf x == idOf c then c else x) = c from if_pos (by simpa using hx)]
      by_cases hj : idOf c = j
      · rw [List.find?_cons_of_pos _ (by simpa using hj), if_pos (by simpa using hj),
          List.find?_cons_of_pos _ (by simp [hx, hj])]
        simp
      · rw [List.find?_cons_of_neg _ (by simpa using hj), if_neg (by simpa using hj),
          List.find?_cons_of_neg _ (by simp [hx, hj]), ih, if_neg (by simpa using hj)]
    · rw [show (if idOf x == idOf c then c else x) = x from if_neg (by simpa using hx)]
      by_cases hxj : idOf x = j
      · have hj : ¬ idOf c = j := fun h => hx (by rw [h, hxj])
        rw [List.find?_cons_of_pos _ (by simpa using hxj), if_neg (by simpa using hj),
          List.find?_cons_of_pos _ (by simpa using hxj)]
      · rw [List.find?_cons_of_neg _ (by simpa using hxj),
          List.find?_cons_of_neg _ (by simpa using hxj), ih]

theorem discountIncrementUsage_id (d : Discount) : d.incrementUsage.id = d.id := by
  unfold Discount.incrementUsage
  cases d.usageLimit with
  | none => rfl
  | some l =>
    by_cases h : 0 < l
    · simp [h]
    · simp [h]

theorem couponIncrementUsage_id (c : Coupon) : c.incrementUsage.id = c.id := by
  unfold Coupon.incrementUsage
  cases c.usageLimit with
  | none => rfl
  | some l =>
    by_cases h : 0 < l
    · simp [h]
    · simp [h]

theorem lookupDiscount_saveDiscount (db : DB) (d0 d : Discount) (j : Nat)
    (hid : d = d0.incrementUsage) :
    (db.saveDiscount d).lookupDiscount j
      = if d0.id == j then (db.lookupDiscount j).map (fun _ => d)
        else db.lookupDiscount j := by
  have hd : d.id = d0.id := by rw [hid]; exact discountIncrementUsage_id d0
  have h := find?_map_replace (fun x : Discount => x.id) db.discounts d j
  simp only [DB.saveDiscount, DB.lookupDiscount]
  rw [show (fun c0 : Discount => if c0.id == d.id then d else c0)
        = (fun x : Discount => if x.id == d.id then d else x) from rfl] at *
  rw [h, hd]

theorem lookupCoupon_saveCoupon (db : DB) (c0 c : Coupon) (j : Nat)
    (hid : c = c0.incrementUsage) :
    (db.saveCoupon c).lookupCoupon j
      = if c0.id == j then (db.lookupCoupon j).map (fun _ => c)
        else db.lookupCoupon j := by
  have hc : c.id = c0.id := by rw [hid]; exact couponIncrementUsage_id c0
  have h := find?_map_replace (fun x : Coupon => x.id) db.coupons c j
  simp only [DB.saveCoupon, DB.lookupCoupon]
  rw [h, hc]

theorem find?_id_self {α : Type} (idOf : α → Nat) :
    ∀ (l : List α), (l.map idOf).Nodup → ∀ x ∈ l,
      l.find? (fun y => idOf y == idOf x) = some x := by
  intro l
  induction l with
  | nil =>
    intro _ x hx
    cases hx
  | cons a as ih =>
    intro hnd x hx
    simp only [List.map_cons, List.nodup_cons] at hnd
    rcases List.mem_cons.mp hx with rfl | hmem
    · exact List.find?_cons_of_pos _ (by simp)
    · have hax : ¬ idOf a = idOf x := by
        intro h
        exact hnd.1 (h ▸ List.mem_map_of_mem idOf hmem)
      rw [List.find?_cons_of_neg _ (by simpa using hax)]
      exact ih hnd.2 x hmem

theorem lookupDiscount_self (db : DB)
    (hnd : (db.discounts.map (fun d => d.id)).Nodup) (d : Discount)
    (hd : d ∈ db.discounts) : db.lookupDiscount d.id = some d :=
  find?_id_self (fun d : Discount => d.id) db.discounts hnd d hd

theorem lookupCoupon_self (db : DB)
    (hnd : (db.coupons.map (fun c => c.id)).Nodup) (c : Coupon)
    (hc : c ∈ db.coupons) : db.lookupCoupon c.id = some c :=
  find?_id_self (fun c : Coupon => c.id) db.coupons hnd c hc

theorem createDiscountsLoop_rec_ids (now : Int) (a : Rat) (q : Nat) :
    ∀ (ds : List Discount) (db : DB) (l : List AppliedDiscount) (t : Rat) (db2 : DB),
      createDiscountsLoop now a q ds db = (.ok (l, t), db2) →
      ∀ rec ∈ l, ∃ d, d ∈ ds ∧ rec.discount.id = d.id := by
  intro ds
  induction ds with
  | nil =>
    intro db l t db2 h rec hrec
    simp only [createDiscountsLoop, Prod.mk.injEq, Except.ok.injEq] at h
    obtain ⟨⟨hl, ht⟩, hdb⟩ := h
    subst hl
    cases hrec
  | cons hd tl ih =>
    intro db l t db2 h rec hrec
    cases hh : hd.canBeApplied now a q with
    | some r => simp [createDiscountsLoop, hh] at h
    | none =>
      by_cases hamt : 0 < hd.calculateDiscount a q
      · rcases hrec2 : createDiscountsLoop now a q tl (db.saveDiscount hd.incrementUsage)
          with ⟨res, db2'⟩
        cases res with
        | error e => simp [createDiscountsLoop, hh, hamt, hrec2] at h
        | ok v =>
          rcases v with ⟨l', t'⟩
          simp only [createDiscountsLoop, hh, if_pos hamt, hrec2, Prod.mk.injEq,
            Except.ok.injEq] at h
          obtain ⟨⟨hl, ht⟩, hdb⟩ := h
          subst hl
          rcases List.mem_cons.mp hrec with rfl | hmem
          · exact ⟨hd, List.mem_cons_self _ _, by simp [Discount.summary]⟩
          · obtain ⟨d, hm, hid⟩ := ih (db.saveDiscount hd.incrementUsage) l' t' db2' hrec2
              rec hmem
            exact ⟨d, List.mem_cons_of_mem _ hm, hid⟩
      · simp only [createDiscountsLoop, hh, if_neg hamt] at h
        obtain ⟨d, hm, hid⟩ := ih db l t db2 h rec hrec
        exact ⟨d, List.mem_cons_of_mem _ hm, hid⟩

theorem createDiscountsLoop_lookup_frame (now : Int) (a : Rat) (q : Nat) :
    ∀ (ds : List Discount) (db : DB) (j : Nat),
      (∀ d ∈ ds, d.id ≠ j) →
      ((createDiscountsLoop now a q ds db).2).lookupDiscount j = db.lookupDiscount j := by
  intro ds
  induction ds with
  | nil =>
    intro db j _
    rfl
  | cons hd tl ih =>
    intro db j hj
    cases hh : hd.canBeApplied now a q with
    | some r => simp [createDiscountsLoop, hh]
    | none =>
      by_cases hamt : 0 < hd.calculateDiscount a q
      · rcases hrec : createDiscountsLoop now a q tl (db.saveDiscount hd.incrementUsage)
          with ⟨res, db2'⟩
        have htl := ih (db.saveDiscount hd.incrementUsage) j
          (fun d hd' => hj d (List.mem_cons_of_mem _ hd'))
        rw [hrec] at htl
        have hsave : (db.saveDiscount hd.incrementUsage).lookupDiscount j
            = db.lookupDiscount j := by
          rw [lookupDiscount_saveDiscount db hd hd.incrementUsage j rfl,
            if_neg (by simpa using hj hd (List.mem_cons_self _ _))]
        cases res with
        | ok v =>
          rcases v with ⟨l', t'⟩
          simp only [createDiscountsLoop, hh, if_pos hamt, hrec]
          exact htl.trans hsave
        | error e =>
          simp only [createDiscountsLoop, hh, if_pos hamt, hrec]
          exact htl.trans hsave
      · simp only [createDiscountsLoop, hh, if_neg hamt]
        exact ih db j (fun d hd' => hj d (List.mem_cons_of_mem _ hd'))

theorem createDiscountsLoop_lookup (now : Int) (a : Rat) (q : Nat) :
    ∀ (ds : List Discount) (db : DB) (l : List AppliedDiscount) (t : Rat) (db2 : DB),
      createDiscountsLoop now a q ds db = (.ok (l, t), db2) →
      (ds.map (fun d => d.id)).Nodup →
      ∀ x ∈ ds,
        db2.lookupDiscount x.id =
          if l.any (fun rec => rec.discount.id == x.id)
          then (db.lookupDiscount x.id).map (fun _ => x.incrementUsage)
          else db.lookupDiscount x.id := by
  intro ds
  induction ds with
  | nil =>
    intro db l t db2 h hnd x hx
    cases hx
  | cons hd tl ih =>
    intro db l t db2 h hnd x hx
    simp only [List.map_cons, List.nodup_cons] at hnd
    cases hh : hd.canBeApplied now a q with
    | some r => simp [createDiscountsLoop, hh] at h
    | none =>
      by_cases hamt : 0 < hd.calculateDiscount a q
      · rcases hrec : createDiscountsLoop now a q tl (db.saveDiscount hd.incrementUsage)
          with ⟨res, db2'⟩
        cases res with
        | error e => simp [createDiscountsLoop, hh, hamt, hrec] at h
        | ok v =>
          rcases v with ⟨l', t'⟩
          simp only [createDiscountsLoop, hh, if_pos hamt, hrec, Prod.mk.injEq,
            Except.ok.injEq] at h
          obtain ⟨⟨hl, ht⟩, hdb⟩ := h
          subst hl
          subst hdb
          rcases List.mem_cons.mp hx with rfl | hmem
          · simp only [List.any_cons, Discount.summary, beq_self_eq_true, Bool.true_or,
              if_true]
            have hframe := createDiscountsLoop_lookup_frame now a q tl
              (db.saveDiscount x.incrementUsage) x.id
              (fun d hdm hid => hnd.1 (hid ▸ List.mem_map_of_mem (fun d => d.id) hdm))
            rw [hrec] at hframe
            have hsave := lookupDiscount_saveDiscount db x x.incrementUsage x.id rfl
            rw [if_pos (by simp)] at hsave
            exact hframe.trans hsave
          · have htl := ih (db.saveDiscount hd.incrementUsage) l' t' db2' hrec hnd.2 x hmem
            have hxid : ¬ hd.id = x.id := fun h' =>
              hnd.1 (h' ▸ List.mem_map_of_mem (fun d => d.id) hmem)
            have hsave := lookupDiscount_saveDiscount db hd hd.incrementUsage x.id rfl
            rw [if_neg (by simpa using hxid)] at hsave
            rw [hsave] at htl
            simp only [List.any_cons, Discount.summary,
              show (hd.id == x.id) = false from beq_eq_false_iff_ne.mpr hxid,
              Bool.false_or]
            exact htl
      · simp only [createDiscountsLoop, hh, if_neg hamt] at h
        rcases List.mem_cons.mp hx with rfl | hmem
        · have hids := createDiscountsLoop_rec_ids now a q tl db l t db2 h
          have hany : (l.any (fun rec => rec.discount.id == x.id)) = false := by
            by_contra hc
            rw [Bool.not_eq_false] at hc
            obtain ⟨rec, hrecm, hrecid⟩ := List.any_eq_true.mp hc
            obtain ⟨d, hdm, hdid⟩ := hids rec hrecm
            have hdx : d.id = x.id := by
              rw [← hdid]
              exact beq_iff_eq.mp hrecid
            exact hnd.1 (hdx ▸ List.mem_map_of_mem (fun d => d.id) hdm)
          rw [hany, if_neg (by simp)]
          have hframe := createDiscountsLoop_lookup_frame now a q tl db x.id
            (fun d hdm hid => hnd.1 (hid ▸ List.mem_map_of_mem (fun d => d.id) hdm))
          rw [h] at hframe
          exact hframe
        · exact ih db l t db2 h hnd.2 x hmem

theorem createCouponStep_spec (db : DB) (now : Int) (cc : Option String) (st : Rat)
    (cd : Rat) (ac : Option IAppliedCoupon) (db1 : DB)
    (h : createCouponStep db now cc st = .ok (cd, ac, db1)) :
    (ac = none → db1 = db)
    ∧ (∀ rec, ac = some rec →
        ∃ c, findActiveCoupon db now (cc.getD "") = some c
          ∧ rec.couponId = c.id ∧ db1 = db.saveCoupon c.incrementUsage) := by
  unfold createCouponStep at h
  by_cases ht : truthyS cc = true
  · rw [if_pos ht] at h
    cases hf : findActiveCoupon db now (cc.getD "") with
    | none =>
      simp only [hf] at h
      exact Except.noConfusion h
    | some c =>
      simp only [hf] at h
      cases hr : createResolveCoupon c st with
      | error e =>
        simp only [hr] at h
        exact Except.noConfusion h
      | ok cd2 =>
        simp only [hr, Except.ok.injEq, Prod.mk.injEq] at h
        obtain ⟨h1, h2, h3⟩ := h
        constructor
        · intro hn
          rw [← h2] at hn
          cases hn
        · intro rec hr2
          rw [← h2] at hr2
          injection hr2 with hr3
          exact ⟨c, rfl, by rw [← hr3], h3.symm⟩
  · rw [if_neg ht] at h
    simp only [Except.ok.injEq, Prod.mk.injEq] at h
    obtain ⟨h1, h2, h3⟩ := h
    constructor
    · intro _
      exact h3.symm
    · intro rec hr2
      rw [← h2] at hr2
      cases hr2

theorem calculateOrderAmount_no_writes (db : DB) (now : Int) (items : List ReqItem)
    (cc : Option String) (p : Bool) :
    (calculateOrderAmount db now items cc p).2 = db := by
  unfold calculateOrderAmount
  cases hval : validateItems items with
  | some e => rfl
  | none =>
    cases hbuild : buildOrderItems db items with
    | error e => simp [hval, hbuild]
    | ok pr =>
      rcases pr with ⟨its, st⟩
      cases hstep : previewCouponStep db now cc st with
      | error e => simp [hval, hbuild, hstep]
      | ok pr2 =>
        rcases pr2 with ⟨cd, ac⟩
        simp [hval, hbuild, hstep]

theorem updateOrder_no_counter_writes (db : DB) (now : Int) (uid : Nat) (adm : Bool)
    (oid : Nat) (items : List ReqItem) (cc : Option String) :
    (updateOrder db now uid adm oid items cc).2.coupons = db.coupons
    ∧ (updateOrder db now uid adm oid items cc).2.discounts = db.discounts := by
  have key : (updateOrder db now uid adm oid items cc).2 = db
      ∨ ∃ o1, (updateOrder db now uid adm oid items cc).2 = db.saveOrder o1 := by
    unfold updateOrder
    cases hval : validateItems items with
    | some e => exact Or.inl rfl
    | none =>
      cases hfind : db.orders.find? (fun o => o.id == oid) with
      | none => simp [hval, hfind]
      | some order =>
        by_cases hauth : (!(order.user == uid || adm)) = true
        · simp [hval, hfind, hauth]
        · by_cases hstat :
            (!(order.status == OrderStatus.pending || order.status == OrderStatus.processing))
              = true
          · simp [hval, hfind, hauth, hstat]
          · cases hbuild : buildOrderItems db items with
            | error e => simp [hval, hfind, hauth, hstat, hbuild]
            | ok pr =>
              rcases pr with ⟨its, st⟩
              by_cases hcd :
                  (order.status == OrderStatus.confirmed
                    || order.status == OrderStatus.delivered) = true
              · refine Or.inr ⟨{ order with items := its }, ?_⟩
                simp [hval, hfind, hauth, hstat, hbuild, hcd]
              · simp only [hval, hfind, hauth, hstat, hbuild, hcd, Bool.false_eq_true,
                  if_false, if_true, eq_self_iff_true]
                refine Or.inr ?_
                split
                · exact ⟨_, rfl⟩
                · split
                  · exact ⟨_, rfl⟩
                  · exact ⟨_, rfl⟩
  rcases key with h | ⟨o1, h⟩
  · rw [h]
    exact ⟨rfl, rfl⟩
  · rw [h]
    exact ⟨rfl, rfl⟩

theorem id_unique {α : Type} (idOf : α → Nat) (l : List α) (hnd : (l.map idOf).Nodup)
    (x y : α) (hx : x ∈ l) (hy : y ∈ l) (hxy : idOf x = idOf y) : x = y := by
  have h1 := find?_id_self idOf l hnd x hx
  have h2 := find?_id_self idOf l hnd y hy
  rw [hxy] at h1
  exact Option.some.inj (h1.symm.trans h2)

theorem lookupCoupon_congr (dbA dbB : DB) (h : dbA.coupons = dbB.coupons) (j : Nat) :
    dbA.lookupCoupon j = dbB.lookupCoupon j := by
  unfold DB.lookupCoupon
  rw [h]

theorem lookupDiscount_congr (dbA dbB : DB) (h : dbA.discounts = dbB.discounts) (j : Nat) :
    dbA.lookupDiscount j = dbB.lookupDiscount j := by
  unfold DB.lookupDiscount
  rw [h]

theorem c6_amended_usage_increments (db : DB) (now : Int) (user : Nat)
    (items : List ReqItem) (cc : Option String) (o : IOrder) (db' : DB)
    (hndc : (db.coupons.map (fun c => c.id)).Nodup)
    (hndd : (db.discounts.map (fun d => d.id)).Nodup)
    (hrun : createOrder db now user items cc = (.ok o, db')) :
    (∀ p, (calculateOrderAmount db now items cc p).2 = db)
    ∧ (∀ uid adm oid its2 cc2,
        (updateOrder db now uid adm oid its2 cc2).2.coupons = db.coupons
        ∧ (updateOrder db now uid adm oid its2 cc2).2.discounts = db.discounts)
    ∧ (o.appliedCoupon = none → db'.coupons = db.coupons)
    ∧ (∀ rec, o.appliedCoupon = some rec → ∀ c0 ∈ db.coupons, c0.id = rec.couponId →
        db'.lookupCoupon rec.couponId = some c0.incrementUsage)
    ∧ (∀ d0 ∈ db.discounts,
        db'.lookupDiscount d0.id =
          if o.automaticDiscounts.any (fun rec => rec.discount.id == d0.id)
          then some d0.incrementUsage
          else some d0) := by
  refine ⟨fun p => calculateOrderAmount_no_writes db now items cc p,
          fun uid adm oid its2 cc2 => updateOrder_no_counter_writes db now uid adm oid its2 cc2,
          ?_⟩
  unfold createOrder at hrun
  cases hval : validateItems items with
  | some e => simp [hval] at hrun
  | none =>
    cases hbuild : buildOrderItems db items with
    | error e => simp [hval, hbuild] at hrun
    | ok pr =>
      rcases pr with ⟨its, st⟩
      cases hstep : createCouponStep db now cc st with
      | error e => simp [hval, hbuild, hstep] at hrun
      | ok tri =>
        rcases tri with ⟨cd, ac, db1⟩
        rcases hloop : createDiscountsLoop now (st - cd) (totalQuantity items)
            (activeDiscounts db1 now) db1 with ⟨res, db2⟩
        cases res with
        | error e => simp [hval, hbuild, hstep, hloop] at hrun
        | ok v =>
          rcases v with ⟨autos, totalAuto⟩
          simp only [hval, hbuild, hstep, hloop, Prod.mk.injEq, Except.ok.injEq] at hrun
          obtain ⟨ho, hdb'⟩ := hrun
          subst hdb'
          subst ho
          have hspec := createCouponStep_spec db now cc st cd ac db1 hstep
          have hstate := createCouponStep_state db now cc st cd ac db1 hstep
          have hloopstate := createDiscountsLoop_state now (st - cd) (totalQuantity items)
            (activeDiscounts db1 now) db1
          rw [hloop] at hloopstate
          have hc2 : db2.coupons = db1.coupons := hloopstate.2.1
          have hd1 : db1.discounts = db.discounts := hstate.2.1
          have hdsnd : ((activeDiscounts db1 now).map (fun d => d.id)).Nodup := by
            have hsub : ((activeDiscounts db1 now).map (fun d => d.id)).Sublist
                (db1.discounts.map (fun d => d.id)) :=
              (List.filter_sublist db1.discounts).map (fun d => d.id)
            rw [hd1] at hsub
            exact hndd.sublist hsub
          refine ⟨?_, ?_, ?_⟩
          · intro hac
            have hdb1 : db1 = db := hspec.1 hac
            show db2.coupons = db.coupons
            rw [hc2, hdb1]
          · intro rec hac c0 hc0 hid
            obtain ⟨c, hf, hrid, hdb1⟩ := hspec.2 rec hac
            have hcmem : c ∈ db.coupons := by
              unfold findActiveCoupon at hf
              exact List.mem_of_find?_eq_some hf
            have hceq : c0 = c :=
              id_unique (fun c => c.id) db.coupons hndc c0 c hc0 hcmem (by show c0.id = c.id; rw [hid, hrid])
            show db2.lookupCoupon rec.couponId = some c0.incrementUsage
            rw [lookupCoupon_congr db2 db1 hc2 rec.couponId, hdb1, hrid,
              lookupCoupon_saveCoupon db c c.incrementUsage c.id rfl,
              if_pos (by simp), lookupCoupon_self db hndc c hcmem, hceq]
            rfl
          · intro d0 hd0
            have hlook1 : db1.lookupDiscount d0.id = some d0 := by
              rw [lookupDiscount_congr db1 db hd1 d0.id]
              exact lookupDiscount_self db hndd d0 hd0
            by_cases hmem : d0 ∈ activeDiscounts db1 now
            · have hmain := createDiscountsLoop_lookup now (st - cd) (totalQuantity items)
                (activeDiscounts db1 now) db1 autos totalAuto db2 hloop hdsnd d0 hmem
              show db2.lookupDiscount d0.id = _
              rw [hmain, hlook1]
              split
              · rfl
              · rfl
            · have hne : ∀ d' ∈ activeDiscounts db1 now, d'.id ≠ d0.id := by
                intro d' hd' hid'
                have hd'mem : d' ∈ db.discounts := by
                  rw [← hd1]
                  exact List.mem_of_mem_filter hd'
                have : d' = d0 := id_unique (fun d => d.id) db.discounts hndd d' d0 hd'mem hd0 hid'
                rw [this] at hd'
                exact hmem hd'
              have hany : (autos.any (fun rec => rec.discount.id == d0.id)) = false := by
                by_contra hcon
                rw [Bool.not_eq_false] at hcon
                obtain ⟨rec, hrecm, hrecid⟩ := List.any_eq_true.mp hcon
                obtain ⟨d', hd'm, hd'id⟩ := createDiscountsLoop_rec_ids now (st - cd)
                  (totalQuantity items) (activeDiscounts db1 now) db1 autos totalAuto db2
                  hloop rec hrecm
                exact hne d' hd'm (by rw [← hd'id]; exact beq_iff_eq.mp hrecid)
              have hframe := createDiscountsLoop_lookup_frame now (st - cd)
                (totalQuantity items) (activeDiscounts db1 now) db1 d0.id hne
              rw [hloop] at hframe
              show db2.lookupDiscount d0.id = _
              rw [hany]
              simp only [Bool.false_eq_true, if_false]
              exact hframe.trans hlook1

/-- Witness for `c6_amended_usage_increments` on the fixture store with the
limit-5 "SAVE" coupon applied (the created order carries the coupon and the
stored coupon ends at usedCount 1; no discounts exist, so every discount
entry is untouched). -/
theorem c6_amended_usage_increments_witness :
    ∃ o db', createOrder exDbC6 0 7 exItems (some "SAVE") = (.ok o, db')
      ∧ ((∀ p, (calculateOrderAmount exDbC6 0 exItems (some "SAVE") p).2 = exDbC6)
        ∧ (∀ uid adm oid its2 cc2,
            (updateOrder exDbC6 0 uid adm oid its2 cc2).2.coupons = exDbC6.coupons
            ∧ (updateOrder exDbC6 0 uid adm oid its2 cc2).2.discounts = exDbC6.discounts)
        ∧ (o.appliedCoupon = none → db'.coupons = exDbC6.coupons)
        ∧ (∀ rec, o.appliedCoupon = some rec → ∀ c0 ∈ exDbC6.coupons,
            c0.id = rec.couponId →
            db'.lookupCoupon rec.couponId = some c0.incrementUsage)
        ∧ (∀ d0 ∈ exDbC6.discounts,
            db'.lookupDiscount d0.id =
              if o.automaticDiscounts.any (fun rec => rec.discount.id == d0.id)
              then some d0.incrementUsage
              else some d0)) := by
  rcases hrun : createOrder exDbC6 0 7 exItems (some "SAVE") with ⟨res, db'⟩
  cases res with
  | error e =>
    exfalso
    have hup : jsToUpperCase "SAVE" = "SAVE" := rfl
    revert hrun
    norm_num +decide [createOrder, createCouponStep, validateItems, buildOrderItems,
      findActiveCoupon, createResolveCoupon, couponUsageExceeded, couponBelowMinimum,
      couponDiscountOn, createDiscountsLoop, activeDiscounts, totalQuantity,
      Coupon.incrementUsage, DB.saveCoupon, truthyQ, truthyN, truthyS, hup,
      exDbC6, exItems, exProduct100, exCouponNoLimit]
    intro hcon
    exact Except.noConfusion hcon
  | ok o =>
    exact ⟨o, db', rfl,
      c6_amended_usage_increments exDbC6 0 7 exItems (some "SAVE") o db'
        (by decide) (by decide) hrun⟩
